import Mathlib

set_option maxHeartbeats 1000000

namespace Beatemup

/-! Shallow embedding of the loading / hot-reload subsystem of
`src/loading.rs` (fishfight/beatemup). Bevy-specific machinery (queries,
commands, schedules) is modelled explicitly: deferred `Commands` become an
ordered `Effect` list, `Query::get_single` becomes a check that the entity
count is exactly one, and `.unwrap()` panics become `Except.error`. -/

/-- Opaque asset identifier: a `Handle<T>` pointing into the asset store. -/
structure Handle where
  id : Nat
deriving DecidableEq, Repr

/-- Asset change notifications: `AssetEvent<T>` with variants
`Created`, `Modified`, `Removed`, each carrying a handle. -/
inductive AssetEvent where
  | created (h : Handle)
  | modified (h : Handle)
  | removed (h : Handle)
deriving DecidableEq, Repr

/-- The states of `GameState` that `loading.rs` interacts with. -/
inductive GameState where
  | loadingGame
  | mainMenu
  | loadingLevel
  | inGame
deriving DecidableEq, Repr

/-- The fields of `GameMeta` read by `GameLoader::load`: the UI theme's font
family names, the translation locales, and the camera height. The remaining
payload is opaque for this development. -/
structure GameMeta where
  fontFamilies : List String
  detectedLocale : String
  defaultLocale : String
  cameraHeight : Nat
deriving DecidableEq, Repr

/-- Deferred world mutations issued through `Commands` / event writers /
`NextState`, in program order. -/
inductive Effect where
  | despawnCamera
  | insertEguiFonts
  | setNextState (s : GameState)
  | insertLocale (detected dflt : String)
  | spawnCamera (height : Nat)
  | registerBorderImages
  | insertGameResource (g : GameMeta)
  | createParallax
  | insertClearColor (c : Nat)
  | spawnPlayer (i : Nat)
  | spawnEnemy (e : Nat) (boss : Bool)
  | spawnItem (i : Nat)
  | insertLevelResource
deriving DecidableEq, Repr

/-- One iteration of the event drain loop in `GameLoader::should_skip_run`.
The state is `(has_update, skip_next_asset_update_event)`: a `Modified` event
clears a set skip flag (discounting that occurrence), otherwise marks a real
update; `Created` and `Removed` events fall through the `if let` untouched. -/
def scanStep (st : Bool × Bool) (e : AssetEvent) : Bool × Bool :=
  match e with
  | AssetEvent.modified _ => if st.2 then (st.1, false) else (true, st.2)
  | _ => st

/-- `GameLoader::should_skip_run`: drains the pending `AssetEvent<GameMeta>`
batch when `is_hot_reload` and skips the run when no real update was found.
Returns `(should skip, new skip flag)`. -/
def should_skip_run (skipFlag : Bool) (isHotReload : Bool)
    (events : List AssetEvent) : Bool × Bool :=
  if isHotReload then
    let r := events.foldl scanStep (false, skipFlag)
    (!r.1, r.2)
  else
    (false, skipFlag)

/-- Specification-side count of real (non-discounted) Modified events in a
batch, given the incoming skip flag: the first Modified event while the flag
is set is discounted, every other Modified event counts. -/
def realCount : Bool → List AssetEvent → Nat
  | _, [] => 0
  | skip, AssetEvent.modified _ :: rest =>
      if skip then realCount false rest else realCount false rest + 1
  | skip, _ :: rest => realCount skip rest

/-- Outcome of one `GameLoader::load` run: the new skip flag, whether the
re-apply body past the skip check and the resolution check executed, and the
deferred effects in program order. -/
structure LoadOutcome where
  skipFlag : Bool
  reapplied : Bool
  effects : List Effect
deriving DecidableEq, Repr

/-- `GameLoader::load`. `cameraCount` is the number of live `Camera`
entities; `camera.get_single()` succeeds exactly when it is 1, and on failure
the despawn is silently skipped (it is inside `if let Ok`). In the hot-reload
branch the old camera is despawned and the skip flag set; in the one-time
branch empty egui fonts are installed and the next state set to MainMenu.
Both branches then insert the locale, spawn the new camera, register the
themed border images and insert the game resource, in that order. -/
def GameLoader.load (isHotReload : Bool) (skipFlag : Bool)
    (events : List AssetEvent) (game : Option GameMeta) (cameraCount : Nat) :
    LoadOutcome :=
  let s := should_skip_run skipFlag isHotReload events
  if s.1 then
    { skipFlag := s.2, reapplied := false, effects := [] }
  else
    match game with
    | none => { skipFlag := s.2, reapplied := false, effects := [] }
    | some g =>
      if isHotReload then
        { skipFlag := true
          reapplied := true
          effects :=
            (if cameraCount = 1 then [Effect.despawnCamera] else []) ++
            [Effect.insertLocale g.detectedLocale g.defaultLocale,
             Effect.spawnCamera g.cameraHeight,
             Effect.registerBorderImages,
             Effect.insertGameResource g] }
      else
        { skipFlag := s.2
          reapplied := true
          effects :=
            [Effect.insertEguiFonts,
             Effect.setNextState GameState.mainMenu,
             Effect.insertLocale g.detectedLocale g.defaultLocale,
             Effect.spawnCamera g.cameraHeight,
             Effect.registerBorderImages,
             Effect.insertGameResource g] }

/-- Effect of one deferred command on the live `Camera` entity count. -/
def applyCameraEffect (c : Nat) (e : Effect) : Nat :=
  match e with
  | Effect.despawnCamera => c - 1
  | Effect.spawnCamera _ => c + 1
  | _ => c

/-- Camera count after applying a command list in order. -/
def cameraAfter (c : Nat) (effs : List Effect) : Nat :=
  effs.foldl applyCameraEffect c

/-- The per-tick poll input of the LoadingGame readiness gate: whether
`game_assets.get(&game_handle)` resolves, and whether the aggregated
`load_progress.as_percent()` has reached 1.0. -/
structure TickInput where
  gameResolved : Bool
  progressGe1 : Bool
deriving DecidableEq, Repr

/-- The `game_assets_loaded` run condition: the game definition resolves and
its aggregated load progress `as_percent() >= 1.0`. -/
def game_assets_loaded (t : TickInput) : Bool :=
  t.gameResolved && t.progressGe1

/-- One Update-schedule tick of the LoadingGame readiness gate. `load_game`
is registered with `run_if(in_state(LoadingGame)).run_if(game_assets_loaded)`,
so it runs only then; it calls `GameLoader::load(false)`, whose resolved
branch requests MainMenu via `next_state.set`, applied before the next tick.
Returns the state seen by the next tick and whether the transition fired. -/
def gateStep (g : GameMeta) (s : GameState) (t : TickInput) : GameState × Bool :=
  if s = GameState.loadingGame ∧ game_assets_loaded t then
    let out := GameLoader.load false false []
      (if t.gameResolved then some g else none) 0
    if Effect.setNextState GameState.mainMenu ∈ out.effects then
      (GameState.mainMenu, true)
    else
      (s, false)
  else
    (s, false)

/-- Run the readiness gate over a sequence of polls, counting firings. -/
def runGate (g : GameMeta) : GameState → List TickInput → GameState × Nat
  | s, [] => (s, 0)
  | s, t :: ts =>
    let st := gateStep g s t
    let rest := runGate g st.1 ts
    (rest.1, (if st.2 then 1 else 0) + rest.2)

/-- The fields of `LevelMeta` read by `load_level` / `hot_reload_level`:
the player, enemy (with boss flag) and item spawn lists, plus opaque ids for
the parallax layer data and the background color. -/
structure LevelMeta where
  players : List Nat
  enemies : List (Nat × Bool)
  items : List Nat
  parallaxLayers : Nat
  backgroundColor : Nat
deriving DecidableEq, Repr

/-- Spawn effects for the `load_level` player loop (enumerate spawns one
`PlayerBundle` per entry). -/
def spawnPlayers (ps : List Nat) : List Effect :=
  ps.map Effect.spawnPlayer

/-- Spawn effects for the `load_level` enemy loop; the `Boss` marker is folded
into the spawn effect since it is inserted on the same entity commands. -/
def spawnEnemies (es : List (Nat × Bool)) : List Effect :=
  es.map (fun e => Effect.spawnEnemy e.1 e.2)

/-- Spawn effects for the `load_level` item loop. -/
def spawnItems (its : List Nat) : List Effect :=
  its.map Effect.spawnItem

/-- `load_level`.  `levelResolved` is `assets.get(&level_handle)`;
`progressGe1` is `load_progress.as_percent() >= 1.0`; `cameraCount` is the
number of live `Camera` entities — `camera_query.get_single().unwrap()`
panics unless it is exactly 1, modelled as `Except.error`.  On success the
boolean records whether `next_state.set(GameState::InGame)` was requested. -/
def load_level (levelResolved : Option LevelMeta) (progressGe1 : Bool)
    (cameraCount : Nat) : Except String (List Effect × Bool) :=
  match levelResolved with
  | none => Except.ok ([], false)
  | some level =>
    if !progressGe1 then
      Except.ok ([], false)
    else if cameraCount ≠ 1 then
      Except.error "load_level: camera_query.get_single().unwrap() panicked"
    else
      Except.ok
        ([Effect.createParallax,
          Effect.insertClearColor level.backgroundColor] ++
         spawnPlayers level.players ++
         spawnEnemies level.enemies ++
         spawnItems level.items ++
         [Effect.insertLevelResource], true)

/-- Body of the `hot_reload_level` event loop for a single event.
`AssetEvent::Modified { handle }` first unwraps `assets.get(handle)` (for any
modified level handle, current or not); only when the handle equals the
current `LevelHandle` does it unwrap the primary window and the camera, send
`CreateParallaxEvent` and replace `ClearColor`. -/
def hot_reload_level_event (resolveLevel : Handle → Option LevelMeta)
    (levelHandle : Handle) (windowCount cameraCount : Nat) (e : AssetEvent) :
    Except String (List Effect) :=
  match e with
  | AssetEvent.modified h =>
    match resolveLevel h with
    | none => Except.error "hot_reload_level: assets.get(handle).unwrap() panicked"
    | some level =>
      if h = levelHandle then
        if windowCount ≠ 1 then
          Except.error "hot_reload_level: window_query.get_single().unwrap() panicked"
        else if cameraCount ≠ 1 then
          Except.error "hot_reload_level: camera_query.get_single().unwrap() panicked"
        else
          Except.ok [Effect.createParallax,
                     Effect.insertClearColor level.backgroundColor]
      else
        Except.ok []
  | _ => Except.ok []

/-- `hot_reload_level`: folds the event batch, accumulating effects in order,
propagating the first panic. -/
def hot_reload_level (resolveLevel : Handle → Option LevelMeta)
    (levelHandle : Handle) (windowCount cameraCount : Nat) :
    List AssetEvent → Except String (List Effect)
  | [] => Except.ok []
  | e :: rest =>
    match hot_reload_level_event resolveLevel levelHandle windowCount cameraCount e with
    | Except.error msg => Except.error msg
    | Except.ok effs =>
      match hot_reload_level resolveLevel levelHandle windowCount cameraCount rest with
      | Except.error msg => Except.error msg
      | Except.ok more => Except.ok (effs ++ more)

/-- Opaque stat block (`Stats`); its presence on an entity is the
materialized marker, its payload is owned by `FighterMeta::stats`. -/
structure StatsData where
  payload : Nat
deriving DecidableEq, Repr

/-- The fields of `FighterMeta` read by `load_fighters` /
`hot_reload_fighters`: the display name, the spritesheet's declared
animation-atlas variant handles, the animation fps and animation table
(opaque id), and the stat block. -/
structure FighterMeta where
  name : String
  atlasVariants : List Nat
  animationFps : Nat
  animations : Nat
  stats : StatsData
deriving DecidableEq, Repr

/-- An ECS entity that carries a `Handle<FighterMeta>`. Optional fields are
the components a stub lacks and materialization adds: `Name`,
`Handle<TextureAtlas>`, `Animation`, `Stats`.  `health` stands for
gameplay-authored mutable state owned by other systems. -/
structure FighterEntity where
  eid : Nat
  transform : Int × Int
  fighterHandle : Handle
  isPlayer : Bool
  isEnemy : Bool
  name : Option String
  atlas : Option Nat
  animation : Option (Nat × Nat)
  stats : Option StatsData
  health : Nat
deriving DecidableEq, Repr

/-- `SliceRandom::choose`: `some` element of the list picked by the opaque
random draw `pick`, `none` exactly when the list is empty. -/
def chooseRand (pick : Nat) (l : List Nat) : Option Nat :=
  l.get? (pick % l.length)

/-- Modelled from the spec: `ActiveFighterBundle::activate_fighter_stub`
lives in `src/fighter.rs`, which is not among the provided sources.  Per
spec section 4.4 it copies the full component set in one step — identity, an
animation-atlas variant chosen at random among the declared alternatives,
the animation timing/atlas set, the stat block — and adds the materialized
marker (`Stats`) so the entity is never reselected. -/
def activate_fighter_stub (pick : Nat) (f : FighterMeta) (e : FighterEntity) :
    FighterEntity :=
  { e with
    name := some f.name
    atlas := chooseRand pick f.atlasVariants
    animation := some (f.animationFps, f.animations)
    stats := some f.stats }

/-- Body of the `load_fighters` loop for one entity.  The query selects
entities with a `Handle<FighterMeta>` but `Without<Stats>`; an entity whose
handle does not resolve is left untouched. -/
def materializeStep (resolve : Handle → Option FighterMeta) (pick : Nat)
    (e : FighterEntity) : FighterEntity :=
  if e.stats = none then
    match resolve e.fighterHandle with
    | some f => activate_fighter_stub pick f e
    | none => e
  else
    e

/-- `load_fighters`: one InGame tick of the stub materializer over all
fighter entities. -/
def load_fighters (resolve : Handle → Option FighterMeta) (pick : Nat)
    (es : List FighterEntity) : List FighterEntity :=
  es.map (materializeStep resolve pick)

/-- In-place overwrite performed by `hot_reload_fighters` on one matching
entity: `Name`, the randomly chosen `Handle<TextureAtlas>`, `Animation` and
`Stats` are written; everything else on the entity is untouched.  The
`choose(..).unwrap()` panic on an empty variant list is `Except.error`. -/
def overwriteFighter (pick : Nat) (f : FighterMeta) (e : FighterEntity) :
    Except String FighterEntity :=
  match chooseRand pick f.atlasVariants with
  | none => Except.error "hot_reload_fighters: choose(..).unwrap() panicked"
  | some a =>
    Except.ok
      { e with
        name := some f.name
        atlas := some a
        animation := some (f.animationFps, f.animations)
        stats := some f.stats }

/-- Whether an entity is yielded by the `hot_reload_fighters` query, which
requires `Name`, `Handle<TextureAtlas>`, `Animation` and `Stats` all present. -/
def inReloadQuery (e : FighterEntity) : Bool :=
  e.name.isSome && e.atlas.isSome && e.animation.isSome && e.stats.isSome

/-- Body of the inner `hot_reload_fighters` loop for one queried entity and
one modified handle: a non-matching handle leaves the entity untouched; a
matching one unwraps `assets.get(fighter_handle)` and overwrites in place. -/
def reloadFighterStep (resolve : Handle → Option FighterMeta) (pick : Nat)
    (changed : Handle) (e : FighterEntity) : Except String FighterEntity :=
  if inReloadQuery e then
    if e.fighterHandle = changed then
      match resolve e.fighterHandle with
      | none => Except.error "hot_reload_fighters: assets.get(..).unwrap() panicked"
      | some f => overwriteFighter pick f e
    else
      Except.ok e
  else
    Except.ok e

/-- Inner loop of `hot_reload_fighters` over all entities for one event. -/
def reloadFightersOnce (resolve : Handle → Option FighterMeta) (pick : Nat)
    (changed : Handle) : List FighterEntity → Except String (List FighterEntity)
  | [] => Except.ok []
  | e :: rest =>
    match reloadFighterStep resolve pick changed e with
    | Except.error msg => Except.error msg
    | Except.ok e' =>
      match reloadFightersOnce resolve pick changed rest with
      | Except.error msg => Except.error msg
      | Except.ok rest' => Except.ok (e' :: rest')

/-- `hot_reload_fighters`: outer loop over the `AssetEvent<FighterMeta>`
batch; only `Modified` events are handled. -/
def hot_reload_fighters (resolve : Handle → Option FighterMeta) (pick : Nat)
    (es : List FighterEntity) : List AssetEvent → Except String (List FighterEntity)
  | [] => Except.ok es
  | AssetEvent.modified h :: rest =>
    match reloadFightersOnce resolve pick h es with
    | Except.error msg => Except.error msg
    | Except.ok es' => hot_reload_fighters resolve pick es' rest
  | _ :: rest => hot_reload_fighters resolve pick es rest

/-! ### Helper lemmas -/

/-- Whether a batch contains any `Modified` event. -/
def hasModified (evs : List AssetEvent) : Bool :=
  evs.any fun e =>
    match e with
    | AssetEvent.modified _ => true
    | _ => false

/-- Whether an `Except` result is a panic. -/
def panicked {α : Type} : Except String α → Bool
  | Except.error _ => true
  | Except.ok _ => false

theorem scan_foldl (evs : List AssetEvent) : ∀ hu skip : Bool,
    evs.foldl scanStep (hu, skip) =
      (hu || decide (1 ≤ realCount skip evs), skip && !hasModified evs) := by
  induction evs with
  | nil => intro hu skip; simp [realCount, hasModified]
  | cons e rest ih =>
    intro hu skip
    cases e with
    | modified h =>
      cases skip with
      | false =>
        have hstep : scanStep (hu, false) (AssetEvent.modified h) = (true, false) := by
          simp [scanStep]
        rw [List.foldl_cons, hstep, ih]
        simp [realCount, hasModified]
      | true =>
        have hstep : scanStep (hu, true) (AssetEvent.modified h) = (hu, false) := by
          simp [scanStep]
        rw [List.foldl_cons, hstep, ih]
        simp [realCount, hasModified]
    | created h =>
      have hstep : scanStep (hu, skip) (AssetEvent.created h) = (hu, skip) := by
        simp [scanStep]
      rw [List.foldl_cons, hstep, ih]
      simp [realCount, hasModified]
    | removed h =>
      have hstep : scanStep (hu, skip) (AssetEvent.removed h) = (hu, skip) := by
        simp [scanStep]
      rw [List.foldl_cons, hstep, ih]
      simp [realCount, hasModified]

theorem should_skip_run_spec (skip : Bool) (evs : List AssetEvent) :
    should_skip_run skip true evs =
      (!decide (1 ≤ realCount skip evs), skip && !hasModified evs) := by
  simp only [should_skip_run, if_pos rfl, scan_foldl]
  simp

theorem gateStep_no_fire (g : GameMeta) (s : GameState) (t : TickInput)
    (h : game_assets_loaded t = false) : gateStep g s t = (s, false) := by
  simp [gateStep, h]

theorem gateStep_from_other (g : GameMeta) (s : GameState) (t : TickInput)
    (h : s ≠ GameState.loadingGame) : gateStep g s t = (s, false) := by
  simp [gateStep, h]

theorem gateStep_fires (g : GameMeta) (t : TickInput)
    (ht : game_assets_loaded t = true) :
    gateStep g GameState.loadingGame t = (GameState.mainMenu, true) := by
  have hres : t.gameResolved = true := by
    have := ht
    simp [game_assets_loaded, Bool.and_eq_true] at this
    exact this.1
  simp [gateStep, ht, hres, GameLoader.load, should_skip_run]

theorem runGate_stuck (g : GameMeta) (s : GameState)
    (hs : s ≠ GameState.loadingGame) :
    ∀ ts : List TickInput, runGate g s ts = (s, 0) := by
  intro ts
  induction ts with
  | nil => rfl
  | cons t rest ih =>
    simp [runGate, gateStep_from_other g s t hs, ih]

/-! ### Claims -/

/-- C1: the Readiness Gate for the game root fires exactly once.  On a trace
of LoadingGame polls whose first poll satisfying `game_assets_loaded`
(definition resolved and `as_percent() >= 1.0`) is `t`, the transition fires
exactly once over the whole trace, the state after the firing poll is
MainMenu, and — since the loading system only runs while the state is
LoadingGame — re-polling from any other state never fires again, whatever the
progress inputs. -/
theorem C1_readiness_gate_fires_exactly_once (g : GameMeta)
    (pre post : List TickInput) (t : TickInput)
    (hpre : ∀ u ∈ pre, game_assets_loaded u = false)
    (ht : game_assets_loaded t = true) :
    (runGate g GameState.loadingGame (pre ++ t :: post)).2 = 1 ∧
    (runGate g GameState.loadingGame (pre ++ t :: post)).1 = GameState.mainMenu ∧
    (∀ s : GameState, s ≠ GameState.loadingGame →
      ∀ ts : List TickInput, (runGate g s ts).2 = 0) := by
  refine ⟨?_, ?_, ?_⟩
  case _ =>
    induction pre with
    | nil =>
      simp [runGate, gateStep_fires g t ht,
        runGate_stuck g GameState.mainMenu (by simp) post]
    | cons u rest ih =>
      have hu : game_assets_loaded u = false := hpre u (List.mem_cons_self u rest)
      have hrest : ∀ v ∈ rest, game_assets_loaded v = false := by
        intro v hv; exact hpre v (List.mem_cons_of_mem u hv)
      simp [runGate, gateStep_no_fire g _ u hu, ih hrest]
  case _ =>
    induction pre with
    | nil =>
      simp [runGate, gateStep_fires g t ht,
        runGate_stuck g GameState.mainMenu (by simp) post]
    | cons u rest ih =>
      have hu : game_assets_loaded u = false := hpre u (List.mem_cons_self u rest)
      have hrest : ∀ v ∈ rest, game_assets_loaded v = false := by
        intro v hv; exact hpre v (List.mem_cons_of_mem u hv)
      simp [runGate, gateStep_no_fire g _ u hu, ih hrest]
  case _ =>
    intro s hs ts
    simp [runGate_stuck g s hs ts]

/-- Witness for C1 at a concrete trace: one unsatisfied poll, the firing
poll, then two more satisfied polls that must not re-fire. -/
theorem C1_witness :
    (runGate ⟨["f"], "en", "en", 10⟩ GameState.loadingGame
      ([⟨true, false⟩] ++ ⟨true, true⟩ :: [⟨true, true⟩, ⟨true, true⟩])).2 = 1 ∧
    (runGate ⟨["f"], "en", "en", 10⟩ GameState.loadingGame
      ([⟨true, false⟩] ++ ⟨true, true⟩ :: [⟨true, true⟩, ⟨true, true⟩])).1 =
      GameState.mainMenu := by
  have h := C1_readiness_gate_fires_exactly_once ⟨["f"], "en", "en", 10⟩
    [⟨true, false⟩] [⟨true, true⟩, ⟨true, true⟩] ⟨true, true⟩
    (by intro u hu; simp at hu; subst hu; rfl) rfl
  exact ⟨h.1, h.2.1⟩

theorem load_hot_skipped (g : GameMeta) (skip : Bool) (evs : List AssetEvent)
    (c : Nat) (h : realCount skip evs = 0) :
    GameLoader.load true skip evs (some g) c =
      { skipFlag := skip && !hasModified evs, reapplied := false, effects := [] } := by
  simp [GameLoader.load, should_skip_run_spec, h]

theorem load_hot_reapplies (g : GameMeta) (skip : Bool) (evs : List AssetEvent)
    (c : Nat) (h : 1 ≤ realCount skip evs) :
    GameLoader.load true skip evs (some g) c =
      { skipFlag := true
        reapplied := true
        effects :=
          (if c = 1 then [Effect.despawnCamera] else []) ++
          [Effect.insertLocale g.detectedLocale g.defaultLocale,
           Effect.spawnCamera g.cameraHeight,
           Effect.registerBorderImages,
           Effect.insertGameResource g] } := by
  simp [GameLoader.load, should_skip_run_spec, h]

theorem realCount_append_of_noModified (pre : List AssetEvent)
    (hpre : hasModified pre = false) :
    ∀ (skip : Bool) (rest : List AssetEvent),
      realCount skip (pre ++ rest) = realCount skip rest := by
  induction pre with
  | nil => intro skip rest; rfl
  | cons e p ih =>
    intro skip rest
    cases e with
    | modified h => simp [hasModified] at hpre
    | created h =>
      have hp : hasModified p = false := by simpa [hasModified] using hpre
      simpa [realCount] using ih hp skip rest
    | removed h =>
      have hp : hasModified p = false := by simpa [hasModified] using hpre
      simpa [realCount] using ih hp skip rest

/-- C2: per hot-reload tick of the Game debouncer (with the definition
resolved), the re-apply pass runs at most once — the batch is drained in one
pass, inserting the updated game resource at most once — and it runs if and
only if the batch holds at least one Modified event beyond the single
occurrence discounted while the SkipFlag was set.  Consequently one real
Modified event re-applies and sets the flag, the next tick's single
self-caused Modified is discounted (net real count 1), and two real Modified
events in one tick yield one re-apply pass with the flag set once. -/
theorem C2_debouncer_reapply_iff_real_change (g : GameMeta) (skip : Bool)
    (evs : List AssetEvent) (c : Nat) (h h' : Handle) :
    ((GameLoader.load true skip evs (some g) c).reapplied = true ↔
      1 ≤ realCount skip evs) ∧
    (GameLoader.load true skip evs (some g) c).effects.count
      (Effect.insertGameResource g) ≤ 1 ∧
    (GameLoader.load true false [AssetEvent.modified h] (some g) c).reapplied
      = true ∧
    (GameLoader.load true false [AssetEvent.modified h] (some g) c).skipFlag
      = true ∧
    (GameLoader.load true true [AssetEvent.modified h'] (some g) c).reapplied
      = false ∧
    realCount false [AssetEvent.modified h] +
      realCount true [AssetEvent.modified h'] = 1 ∧
    (GameLoader.load true false [AssetEvent.modified h, AssetEvent.modified h']
      (some g) c).reapplied = true ∧
    (GameLoader.load true false [AssetEvent.modified h, AssetEvent.modified h']
      (some g) c).skipFlag = true := by
  refine ⟨?_, ?_, ?_, ?_, ?_, ?_, ?_, ?_⟩
  case _ =>
    constructor
    · intro hre
      by_contra hn
      have h0 : realCount skip evs = 0 := by omega
      rw [load_hot_skipped g skip evs c h0] at hre
      simp at hre
    · intro hge
      rw [load_hot_reapplies g skip evs c hge]
  case _ =>
    rcases Nat.eq_zero_or_pos (realCount skip evs) with h0 | hge
    · rw [load_hot_skipped g skip evs c h0]
      simp
    · rw [load_hot_reapplies g skip evs c hge]
      by_cases hc : c = 1 <;> simp [hc, List.count_cons]
  case _ =>
    rw [load_hot_reapplies g false _ c (by simp [realCount])]
  case _ =>
    rw [load_hot_reapplies g false _ c (by simp [realCount])]
  case _ =>
    rw [load_hot_skipped g true _ c (by simp [realCount])]
  case _ =>
    simp [realCount]
  case _ =>
    rw [load_hot_reapplies g false _ c (by simp [realCount])]
  case _ =>
    rw [load_hot_reapplies g false _ c (by simp [realCount])]

/-- C6 counterexample: with the SkipFlag set, a batch whose very next
notifications are `Created` and `Removed` leaves the flag still set, so the
flag is not consumed by the very next notification of every kind. -/
theorem C6_counterexample :
    (should_skip_run true true
      [AssetEvent.created ⟨0⟩, AssetEvent.removed ⟨0⟩]).2 = true := by
  decide

/-- C6 amended: once set, the SkipFlag is consumed exactly by the very next
`Modified` notification of its kind (that occurrence being discounted);
`Created` and `Removed` notifications never consume it, and a batch with no
`Modified` event leaves it set. -/
theorem C6_amended_skipflag_consumed_by_next_modified
    (pre post : List AssetEvent) (h : Handle)
    (hpre : hasModified pre = false) :
    (should_skip_run true true (pre ++ AssetEvent.modified h :: post)).2
      = false ∧
    realCount true (pre ++ AssetEvent.modified h :: post) =
      realCount false post ∧
    (∀ evs : List AssetEvent, hasModified evs = false →
      (should_skip_run true true evs).2 = true) := by
  refine ⟨?_, ?_, ?_⟩
  case _ =>
    rw [should_skip_run_spec]
    simp [hasModified]
  case _ =>
    rw [realCount_append_of_noModified pre hpre]
    simp [realCount]
  case _ =>
    intro evs hevs
    rw [should_skip_run_spec]
    simp [hevs]

/-- Witness for C6 amended at a concrete batch: a `Created` notification,
then the consuming `Modified` one. -/
theorem C6_amended_witness :
    hasModified [AssetEvent.created ⟨0⟩] = false ∧
    (should_skip_run true true
      ([AssetEvent.created ⟨0⟩] ++ AssetEvent.modified ⟨1⟩ :: [])).2 = false ∧
    realCount true ([AssetEvent.created ⟨0⟩] ++ AssetEvent.modified ⟨1⟩ :: [])
      = realCount false [] := by
  have h := C6_amended_skipflag_consumed_by_next_modified
    [AssetEvent.created ⟨0⟩] [] ⟨1⟩ (by decide)
  exact ⟨by decide, h.1, h.2.1⟩

/-- C3: during a Game hot-reload re-apply step with the definition resolved
(and a real change pending), starting from at most one live Camera the
deferred command list despawns the existing Camera strictly before spawning
the new one: when a Camera exists the very first command is the despawn, the
live Camera count never exceeds one after any command position, and the step
ends with exactly one live Camera. -/
theorem C3_camera_despawn_before_spawn (g : GameMeta) (skip : Bool)
    (evs : List AssetEvent) (c : Nat)
    (hreal : 1 ≤ realCount skip evs) (hc : c ≤ 1) :
    (GameLoader.load true skip evs (some g) c).reapplied = true ∧
    (c = 1 → (GameLoader.load true skip evs (some g) c).effects.head?
      = some Effect.despawnCamera) ∧
    (∀ n : Nat,
      cameraAfter c ((GameLoader.load true skip evs (some g) c).effects.take n)
        ≤ 1) ∧
    cameraAfter c (GameLoader.load true skip evs (some g) c).effects = 1 := by
  rw [load_hot_reapplies g skip evs c hreal]
  interval_cases c
  · refine ⟨rfl, by simp, ?_, by simp [cameraAfter, applyCameraEffect]⟩
    intro n
    rcases n with _ | _ | _ | _ | n <;>
      simp [cameraAfter, applyCameraEffect, List.take]
  · refine ⟨rfl, by simp, ?_, by simp [cameraAfter, applyCameraEffect]⟩
    intro n
    rcases n with _ | _ | _ | _ | _ | n <;>
      simp [cameraAfter, applyCameraEffect, List.take]

/-- Witness for C3 at a concrete hot-reload step with one live camera and
one real Modified event. -/
theorem C3_witness :
    (GameLoader.load true false [AssetEvent.modified ⟨0⟩]
      (some ⟨["f"], "en", "en", 10⟩) 1).reapplied = true ∧
    (GameLoader.load true false [AssetEvent.modified ⟨0⟩]
      (some ⟨["f"], "en", "en", 10⟩) 1).effects.head?
      = some Effect.despawnCamera ∧
    cameraAfter 1 ((GameLoader.load true false [AssetEvent.modified ⟨0⟩]
      (some ⟨["f"], "en", "en", 10⟩) 1).effects.take 2) ≤ 1 ∧
    cameraAfter 1 (GameLoader.load true false [AssetEvent.modified ⟨0⟩]
      (some ⟨["f"], "en", "en", 10⟩) 1).effects = 1 := by
  have h := C3_camera_despawn_before_spawn ⟨["f"], "en", "en", 10⟩ false
    [AssetEvent.modified ⟨0⟩] 1 (by decide) (by decide)
  exact ⟨h.1, h.2.1 rfl, h.2.2.1 2, h.2.2.2⟩

/-- C9: when resolving the root handle returns None, the poll is a silent
no-op.  For the game root, `load_game`'s `GameLoader::load(false)` issues no
effects, does not re-apply and leaves the skip flag unchanged; for the level
root, `load_level` returns cleanly with no effects and no transition; and the
LoadingGame gate step leaves the state unchanged without firing, so the poll
is simply retried next tick without an error. -/
theorem C9_unresolved_root_is_silent_noop (skip : Bool)
    (evs : List AssetEvent) (c : Nat) (ge1 : Bool) (g : GameMeta)
    (s : GameState) (b : Bool) :
    (GameLoader.load false skip evs none c).effects = [] ∧
    (GameLoader.load false skip evs none c).reapplied = false ∧
    (GameLoader.load false skip evs none c).skipFlag = skip ∧
    load_level none ge1 c = Except.ok ([], false) ∧
    panicked (load_level none ge1 c) = false ∧
    gateStep g s ⟨false, b⟩ = (s, false) := by
  refine ⟨?_, ?_, ?_, rfl, rfl, ?_⟩
  · simp [GameLoader.load, should_skip_run]
  · simp [GameLoader.load, should_skip_run]
  · simp [GameLoader.load, should_skip_run]
  · exact gateStep_no_fire g s ⟨false, b⟩ (by simp [game_assets_loaded])

theorem hot_reload_level_panics_of_event
    (resolveLevel : Handle → Option LevelMeta) (lh : Handle)
    (wc cc : Nat) (e : AssetEvent) :
    ∀ evs : List AssetEvent, e ∈ evs →
      panicked (hot_reload_level_event resolveLevel lh wc cc e) = true →
      panicked (hot_reload_level resolveLevel lh wc cc evs) = true := by
  intro evs
  induction evs with
  | nil => intro he; cases he
  | cons e0 rest ih =>
    intro he herr
    rcases List.mem_cons.mp he with rfl | hmem
    · cases hev : hot_reload_level_event resolveLevel lh wc cc e with
      | error msg => simp [hot_reload_level, hev, panicked]
      | ok effs => rw [hev] at herr; simp [panicked] at herr
    · cases hev : hot_reload_level_event resolveLevel lh wc cc e0 with
      | error msg => simp [hot_reload_level, hev, panicked]
      | ok effs =>
        have hrest := ih hmem herr
        cases hr : hot_reload_level resolveLevel lh wc cc rest with
        | error m => simp [hot_reload_level, hev, hr, panicked]
        | ok more => rw [hr] at hrest; simp [panicked] at hrest

/-- C5: a progressing level load or a current-level hot-reload re-apply with
no Camera entity panics (the `get_single().unwrap()`), a loud non-recoverable
fault rather than a silent skip: `load_level` past 100% progress with zero
cameras returns the panic, and `hot_reload_level` on a batch containing a
Modified event for the current level handle with zero cameras panics too. -/
theorem C5_missing_camera_is_fatal (level : LevelMeta)
    (resolveLevel : Handle → Option LevelMeta) (lh : Handle)
    (evs : List AssetEvent) (hm : AssetEvent.modified lh ∈ evs) :
    panicked (load_level (some level) true 0) = true ∧
    panicked (hot_reload_level resolveLevel lh 1 0 evs) = true := by
  constructor
  · simp [load_level, panicked]
  · refine hot_reload_level_panics_of_event resolveLevel lh 1 0
      (AssetEvent.modified lh) evs hm ?_
    unfold hot_reload_level_event
    cases hres : resolveLevel lh with
    | none => simp [hres, panicked]
    | some lvl => simp [hres, panicked]

/-- Witness for C5 at a concrete level, handle and event batch. -/
theorem C5_witness :
    panicked (load_level (some ⟨[], [], [], 0, 0⟩) true 0) = true ∧
    panicked (hot_reload_level (fun _ => some ⟨[], [], [], 0, 0⟩) ⟨0⟩ 1 0
      [AssetEvent.created ⟨1⟩, AssetEvent.modified ⟨0⟩]) = true := by
  exact C5_missing_camera_is_fatal ⟨[], [], [], 0, 0⟩
    (fun _ => some ⟨[], [], [], 0, 0⟩) ⟨0⟩
    [AssetEvent.created ⟨1⟩, AssetEvent.modified ⟨0⟩] (by simp)

/-- C8: an in-game level hot-reload re-apply pass (window and camera both
present, every modified level handle resolved) succeeds and its whole effect
list consists only of parallax-recreation and ClearColor replacement — it
spawns or despawns no player, enemy or item entity — and when no Modified
event concerns the current level handle it emits no effect at all. -/
theorem C8_level_reload_only_visual
    (resolveLevel : Handle → Option LevelMeta) (lh : Handle) :
    ∀ evs : List AssetEvent,
      (∀ hh : Handle, AssetEvent.modified hh ∈ evs →
        (resolveLevel hh).isSome = true) →
      ∃ effs, hot_reload_level resolveLevel lh 1 1 evs = Except.ok effs ∧
        (∀ e ∈ effs, e = Effect.createParallax ∨
          ∃ col, e = Effect.insertClearColor col) ∧
        ((∀ hh : Handle, AssetEvent.modified hh ∈ evs → hh ≠ lh) →
          effs = []) := by
  intro evs
  induction evs with
  | nil =>
    intro _
    exact ⟨[], rfl, by simp, fun _ => rfl⟩
  | cons e0 rest ih =>
    intro hres
    obtain ⟨effs, heq, hvis, hnil⟩ := ih fun hh hmem =>
      hres hh (List.mem_cons_of_mem e0 hmem)
    cases e0 with
    | modified hh =>
      have hsome : (resolveLevel hh).isSome = true :=
        hres hh (List.mem_cons_self _ _)
      obtain ⟨lvl, hlvl⟩ := Option.isSome_iff_exists.mp hsome
      by_cases hmatch : hh = lh
      · refine ⟨[Effect.createParallax,
          Effect.insertClearColor lvl.backgroundColor] ++ effs, ?_, ?_, ?_⟩
        · subst hmatch
          simp [hot_reload_level, hot_reload_level_event, hlvl, heq]
        · intro e he
          rcases List.mem_append.mp he with hl | hr
          · rcases hl with _ | ⟨_, hl⟩
            · exact Or.inl rfl
            · rcases hl with _ | ⟨_, hl⟩
              · exact Or.inr ⟨lvl.backgroundColor, rfl⟩
              · cases hl
          · exact hvis e hr
        · intro hnone
          exact absurd hmatch (hnone hh (List.mem_cons_self _ _))
      · refine ⟨effs, ?_, hvis, ?_⟩
        · simp [hot_reload_level, hot_reload_level_event, hlvl, hmatch, heq]
        · intro hnone
          exact hnil fun hh2 hmem =>
            hnone hh2 (List.mem_cons_of_mem _ hmem)
    | created hh =>
      refine ⟨effs, ?_, hvis, ?_⟩
      · simp [hot_reload_level, hot_reload_level_event, heq]
      · intro hnone
        exact hnil fun hh2 hmem => hnone hh2 (List.mem_cons_of_mem _ hmem)
    | removed hh =>
      refine ⟨effs, ?_, hvis, ?_⟩
      · simp [hot_reload_level, hot_reload_level_event, heq]
      · intro hnone
        exact hnil fun hh2 hmem => hnone hh2 (List.mem_cons_of_mem _ hmem)

/-- Witness for C8: one Modified event for the current level handle and one
for another level, both resolved. -/
theorem C8_witness :
    ∃ effs, hot_reload_level (fun _ => some ⟨[1], [(2, true)], [3], 7, 9⟩)
        ⟨0⟩ 1 1 [AssetEvent.modified ⟨0⟩, AssetEvent.modified ⟨5⟩]
        = Except.ok effs ∧
      (∀ e ∈ effs, e = Effect.createParallax ∨
        ∃ col, e = Effect.insertClearColor col) ∧
      ((∀ hh : Handle,
          AssetEvent.modified hh ∈
            [AssetEvent.modified ⟨0⟩, AssetEvent.modified ⟨5⟩] → hh ≠ ⟨0⟩) →
        effs = []) := by
  exact C8_level_reload_only_visual (fun _ => some ⟨[1], [(2, true)], [3], 7, 9⟩)
    ⟨0⟩ [AssetEvent.modified ⟨0⟩, AssetEvent.modified ⟨5⟩]
    (by intro hh _; rfl)

/-- C4: the stub materializer acts on fighter stubs (entities carrying a
`Handle<FighterMeta>` but no `Stats` component): while the handle is
unresolved the entity is untouched — across any number of ticks — and the
tick it resolves the entity receives the full component set (identity, atlas
variant, animation, stats) in one step, after which the materializer never
touches it again; an entity that already has `Stats` is never selected, so a
materialized entity never regresses to stub. -/
theorem C4_stub_materializer (resolve : Handle → Option FighterMeta)
    (pick : Nat) (e : FighterEntity) (f : FighterMeta)
    (hstub : e.stats = none) :
    (resolve e.fighterHandle = none → materializeStep resolve pick e = e) ∧
    (∀ rs : List ((Handle → Option FighterMeta) × Nat),
      (∀ r ∈ rs, r.1 e.fighterHandle = none) →
      rs.foldl (fun acc r => materializeStep r.1 r.2 acc) e = e) ∧
    (resolve e.fighterHandle = some f →
      materializeStep resolve pick e = activate_fighter_stub pick f e ∧
      (activate_fighter_stub pick f e).stats = some f.stats ∧
      (activate_fighter_stub pick f e).name = some f.name ∧
      (activate_fighter_stub pick f e).animation
        = some (f.animationFps, f.animations) ∧
      (activate_fighter_stub pick f e).atlas = chooseRand pick f.atlasVariants ∧
      ∀ (resolve2 : Handle → Option FighterMeta) (pick2 : Nat),
        materializeStep resolve2 pick2 (activate_fighter_stub pick f e)
          = activate_fighter_stub pick f e) ∧
    (∀ (e' : FighterEntity) (s : StatsData), e'.stats = some s →
      materializeStep resolve pick e' = e') := by
  refine ⟨?_, ?_, ?_, ?_⟩
  · intro hnone
    simp [materializeStep, hstub, hnone]
  · intro rs hrs
    induction rs with
    | nil => rfl
    | cons r rest ih =>
      have hstep : materializeStep r.1 r.2 e = e := by
        simp [materializeStep, hstub, hrs r (List.mem_cons_self r rest)]
      rw [List.foldl_cons, hstep]
      exact ih fun r2 hmem => hrs r2 (List.mem_cons_of_mem r hmem)
  · intro hsome
    refine ⟨by simp [materializeStep, hstub, hsome], rfl, rfl, rfl, rfl, ?_⟩
    intro resolve2 pick2
    simp [materializeStep, activate_fighter_stub]
  · intro e' s hs
    simp [materializeStep, hs]

/-- Witness for C4: a concrete stub that resolves, is materialized in one
step, and is not selected by a later materializer tick. -/
theorem C4_witness :
    materializeStep (fun _ => some ⟨"a", [1, 2], 8, 3, ⟨4⟩⟩) 0
        ⟨0, (0, 0), ⟨0⟩, true, false, none, none, none, none, 5⟩
      = activate_fighter_stub 0 ⟨"a", [1, 2], 8, 3, ⟨4⟩⟩
          ⟨0, (0, 0), ⟨0⟩, true, false, none, none, none, none, 5⟩ ∧
    (activate_fighter_stub 0 ⟨"a", [1, 2], 8, 3, ⟨4⟩⟩
        ⟨0, (0, 0), ⟨0⟩, true, false, none, none, none, none, 5⟩).stats
      = some ⟨4⟩ ∧
    materializeStep (fun _ => none) 1
        (activate_fighter_stub 0 ⟨"a", [1, 2], 8, 3, ⟨4⟩⟩
          ⟨0, (0, 0), ⟨0⟩, true, false, none, none, none, none, 5⟩)
      = activate_fighter_stub 0 ⟨"a", [1, 2], 8, 3, ⟨4⟩⟩
          ⟨0, (0, 0), ⟨0⟩, true, false, none, none, none, none, 5⟩ := by
  have h := C4_stub_materializer (fun _ => some ⟨"a", [1, 2], 8, 3, ⟨4⟩⟩) 0
    ⟨0, (0, 0), ⟨0⟩, true, false, none, none, none, none, 5⟩
    ⟨"a", [1, 2], 8, 3, ⟨4⟩⟩ rfl
  have h3 := h.2.2.1 rfl
  exact ⟨h3.1, h3.2.1, h3.2.2.2.2.2 (fun _ => none) 1⟩

theorem chooseRand_isSome (pick : Nat) (l : List Nat) (h : l ≠ []) :
    (chooseRand pick l).isSome = true := by
  have hlen : 0 < l.length := List.length_pos.mpr h
  have hlt : pick % l.length < l.length := Nat.mod_lt pick hlen
  simp [chooseRand, List.getElem?_eq_getElem hlt]

/-- The total per-entity description of one `hot_reload_fighters` pass for a
changed handle `ch` resolving to `f`: a queried entity whose fighter handle
matches gets exactly identity, atlas variant, animation and stats
overwritten; every other entity is untouched. -/
def reloadedEntity (pick : Nat) (f : FighterMeta) (ch : Handle)
    (e : FighterEntity) : FighterEntity :=
  if inReloadQuery e = true ∧ e.fighterHandle = ch then
    { e with
      name := some f.name
      atlas := chooseRand pick f.atlasVariants
      animation := some (f.animationFps, f.animations)
      stats := some f.stats }
  else e

theorem reloadFighterStep_ok (resolve : Handle → Option FighterMeta)
    (pick : Nat) (ch : Handle) (f : FighterMeta) (e : FighterEntity)
    (hres : resolve ch = some f) (hne : f.atlasVariants ≠ []) :
    reloadFighterStep resolve pick ch e
      = Except.ok (reloadedEntity pick f ch e) := by
  by_cases hq : inReloadQuery e = true
  · by_cases hh : e.fighterHandle = ch
    · obtain ⟨a, ha⟩ := Option.isSome_iff_exists.mp
        (chooseRand_isSome pick f.atlasVariants hne)
      rw [reloadFighterStep, if_pos hq, if_pos hh, hh, hres]
      rw [reloadedEntity, if_pos ⟨hq, hh⟩]
      simp [overwriteFighter, ha]
    · rw [reloadFighterStep, if_pos hq, if_neg hh]
      rw [reloadedEntity, if_neg (by simp [hh])]
  · rw [reloadFighterStep, if_neg hq]
    rw [reloadedEntity, if_neg (by simp [hq])]

theorem reloadFightersOnce_ok (resolve : Handle → Option FighterMeta)
    (pick : Nat) (ch : Handle) (f : FighterMeta)
    (hres : resolve ch = some f) (hne : f.atlasVariants ≠ []) :
    ∀ es : List FighterEntity,
      reloadFightersOnce resolve pick ch es
        = Except.ok (es.map (reloadedEntity pick f ch)) := by
  intro es
  induction es with
  | nil => rfl
  | cons e rest ih =>
    simp [reloadFightersOnce,
      reloadFighterStep_ok resolve pick ch f e hres hne, ih]

/-- C7: when a Fighter definition with handle `ch` (resolving to `f`, with a
nonempty atlas-variant list) is hot-modified, the reload pass succeeds and
maps every entity through `reloadedEntity`: entities referencing a different
fighter handle are untouched, every other component (entity id, transform,
role markers, current health, the fighter handle itself) is preserved on all
entities, and each queried matching entity has exactly its identity, chosen
atlas variant, animation set and stat block overwritten in place. -/
theorem C7_fighter_reload_overwrites_matching
    (resolve : Handle → Option FighterMeta) (pick : Nat) (ch : Handle)
    (f : FighterMeta) (es : List FighterEntity)
    (hres : resolve ch = some f) (hne : f.atlasVariants ≠ []) :
    hot_reload_fighters resolve pick es [AssetEvent.modified ch]
      = Except.ok (es.map (reloadedEntity pick f ch)) ∧
    (∀ e : FighterEntity, e.fighterHandle ≠ ch →
      reloadedEntity pick f ch e = e) ∧
    (∀ e : FighterEntity,
      (reloadedEntity pick f ch e).health = e.health ∧
      (reloadedEntity pick f ch e).eid = e.eid ∧
      (reloadedEntity pick f ch e).transform = e.transform ∧
      (reloadedEntity pick f ch e).isPlayer = e.isPlayer ∧
      (reloadedEntity pick f ch e).isEnemy = e.isEnemy ∧
      (reloadedEntity pick f ch e).fighterHandle = e.fighterHandle) ∧
    (∀ e : FighterEntity, inReloadQuery e = true → e.fighterHandle = ch →
      (reloadedEntity pick f ch e).name = some f.name ∧
      (reloadedEntity pick f ch e).animation
        = some (f.animationFps, f.animations) ∧
      (reloadedEntity pick f ch e).stats = some f.stats ∧
      ∃ a, a ∈ f.atlasVariants ∧ (reloadedEntity pick f ch e).atlas = some a) := by
  refine ⟨?_, ?_, ?_, ?_⟩
  · simp [hot_reload_fighters, reloadFightersOnce_ok resolve pick ch f hres hne]
  · intro e hh
    rw [reloadedEntity, if_neg (by simp [hh])]
  · intro e
    by_cases hcond : inReloadQuery e = true ∧ e.fighterHandle = ch
    · rw [reloadedEntity, if_pos hcond]
      exact ⟨rfl, rfl, rfl, rfl, rfl, rfl⟩
    · rw [reloadedEntity, if_neg hcond]
      exact ⟨rfl, rfl, rfl, rfl, rfl, rfl⟩
  · intro e hq hh
    obtain ⟨a, ha⟩ := Option.isSome_iff_exists.mp
      (chooseRand_isSome pick f.atlasVariants hne)
    rw [reloadedEntity, if_pos ⟨hq, hh⟩]
    refine ⟨rfl, rfl, rfl, a, ?_, ha⟩
    have := ha
    rw [chooseRand] at this
    exact List.get?_mem this

/-- Witness for C7: one matching materialized entity and one entity
referencing a different fighter handle. -/
theorem C7_witness :
    hot_reload_fighters (fun _ => some ⟨"f0", [7], 12, 2, ⟨9⟩⟩) 0
        [⟨0, (0, 0), ⟨0⟩, true, false, some "old", some 1, some (1, 1),
          some ⟨0⟩, 3⟩,
         ⟨1, (2, 2), ⟨5⟩, false, true, some "oth", some 2, some (2, 2),
          some ⟨1⟩, 4⟩]
        [AssetEvent.modified ⟨0⟩]
      = Except.ok
          ([⟨0, (0, 0), ⟨0⟩, true, false, some "old", some 1, some (1, 1),
             some ⟨0⟩, 3⟩,
            ⟨1, (2, 2), ⟨5⟩, false, true, some "oth", some 2, some (2, 2),
             some ⟨1⟩, 4⟩].map
            (reloadedEntity 0 ⟨"f0", [7], 12, 2, ⟨9⟩⟩ ⟨0⟩)) ∧
    reloadedEntity 0 ⟨"f0", [7], 12, 2, ⟨9⟩⟩ ⟨0⟩
        ⟨1, (2, 2), ⟨5⟩, false, true, some "oth", some 2, some (2, 2),
         some ⟨1⟩, 4⟩
      = ⟨1, (2, 2), ⟨5⟩, false, true, some "oth", some 2, some (2, 2),
         some ⟨1⟩, 4⟩ ∧
    (reloadedEntity 0 ⟨"f0", [7], 12, 2, ⟨9⟩⟩ ⟨0⟩
        ⟨0, (0, 0), ⟨0⟩, true, false, some "old", some 1, some (1, 1),
         some ⟨0⟩, 3⟩).health = 3 ∧
    (reloadedEntity 0 ⟨"f0", [7], 12, 2, ⟨9⟩⟩ ⟨0⟩
        ⟨0, (0, 0), ⟨0⟩, true, false, some "old", some 1, some (1, 1),
         some ⟨0⟩, 3⟩).stats = some ⟨9⟩ := by
  have h := C7_fighter_reload_overwrites_matching
    (fun _ => some ⟨"f0", [7], 12, 2, ⟨9⟩⟩) 0 ⟨0⟩ ⟨"f0", [7], 12, 2, ⟨9⟩⟩
    [⟨0, (0, 0), ⟨0⟩, true, false, some "old", some 1, some (1, 1),
      some ⟨0⟩, 3⟩,
     ⟨1, (2, 2), ⟨5⟩, false, true, some "oth", some 2, some (2, 2),
      some ⟨1⟩, 4⟩]
    rfl (by decide)
  refine ⟨h.1, h.2.1 _ (by decide), (h.2.2.1 _).1, (h.2.2.2 _ (by decide) rfl).2.2.1⟩

theorem reloadFightersOnce_panics_of_mem
    (resolve : Handle → Option FighterMeta) (pick : Nat) (ch : Handle)
    (e : FighterEntity) :
    ∀ es : List FighterEntity, e ∈ es →
      panicked (reloadFighterStep resolve pick ch e) = true →
      panicked (reloadFightersOnce resolve pick ch es) = true := by
  intro es
  induction es with
  | nil => intro he; cases he
  | cons e0 rest ih =>
    intro he herr
    rcases List.mem_cons.mp he with rfl | hmem
    · cases hev : reloadFighterStep resolve pick ch e with
      | error msg => simp [reloadFightersOnce, hev, panicked]
      | ok e' => rw [hev] at herr; simp [panicked] at herr
    · cases hev : reloadFighterStep resolve pick ch e0 with
      | error msg => simp [reloadFightersOnce, hev, panicked]
      | ok e' =>
        have hrest := ih hmem herr
        cases hr : reloadFightersOnce resolve pick ch rest with
        | error m => simp [reloadFightersOnce, hev, hr, panicked]
        | ok more => rw [hr] at hrest; simp [panicked] at hrest

/-- C10: the fighter hot-reload re-apply requires every resolved Fighter
definition to declare at least one atlas variant: when the changed
definition's variant list is empty and some queried entity references the
changed handle, the pass panics on `choose(..).unwrap()`; and whenever the
variant list is nonempty the random choice always yields a value, so the
failure branch of the unwrap is unreachable and the overwrite never panics. -/
theorem C10_empty_atlas_variants_panic
    (resolve : Handle → Option FighterMeta) (pick : Nat) (ch : Handle)
    (f : FighterMeta) (es : List FighterEntity) (e : FighterEntity)
    (hres : resolve ch = some f) (hempty : f.atlasVariants = [])
    (hmem : e ∈ es) (hq : inReloadQuery e = true)
    (hh : e.fighterHandle = ch) :
    panicked (hot_reload_fighters resolve pick es [AssetEvent.modified ch])
      = true ∧
    (∀ (f2 : FighterMeta) (e2 : FighterEntity) (pick2 : Nat),
      f2.atlasVariants ≠ [] →
      (chooseRand pick2 f2.atlasVariants).isSome = true ∧
      panicked (overwriteFighter pick2 f2 e2) = false) := by
  constructor
  · have hstep : panicked (reloadFighterStep resolve pick ch e) = true := by
      rw [reloadFighterStep, if_pos hq, if_pos hh, hh, hres]
      simp [overwriteFighter, hempty, chooseRand, panicked]
    have honce := reloadFightersOnce_panics_of_mem resolve pick ch e es hmem hstep
    cases hr : reloadFightersOnce resolve pick ch es with
    | error msg => simp [hot_reload_fighters, hr, panicked]
    | ok es' => rw [hr] at honce; simp [panicked] at honce
  · intro f2 e2 pick2 hne2
    obtain ⟨a, ha⟩ := Option.isSome_iff_exists.mp
      (chooseRand_isSome pick2 f2.atlasVariants hne2)
    exact ⟨chooseRand_isSome pick2 f2.atlasVariants hne2,
      by simp [overwriteFighter, ha, panicked]⟩

/-- Witness for C10: one materialized entity referencing a fighter whose
declared atlas-variant list is empty. -/
theorem C10_witness :
    panicked (hot_reload_fighters (fun _ => some ⟨"f0", [], 12, 2, ⟨9⟩⟩) 0
      [⟨0, (0, 0), ⟨0⟩, true, false, some "old", some 1, some (1, 1),
        some ⟨0⟩, 3⟩]
      [AssetEvent.modified ⟨0⟩]) = true ∧
    (chooseRand 4 [5]).isSome = true := by
  have h := C10_empty_atlas_variants_panic
    (fun _ => some ⟨"f0", [], 12, 2, ⟨9⟩⟩) 0 ⟨0⟩ ⟨"f0", [], 12, 2, ⟨9⟩⟩
    [⟨0, (0, 0), ⟨0⟩, true, false, some "old", some 1, some (1, 1),
      some ⟨0⟩, 3⟩]
    ⟨0, (0, 0), ⟨0⟩, true, false, some "old", some 1, some (1, 1),
      some ⟨0⟩, 3⟩
    rfl rfl (by simp) (by decide) rfl
  exact ⟨h.1, (h.2 ⟨"g", [5], 1, 1, ⟨0⟩⟩
    ⟨0, (0, 0), ⟨0⟩, true, false, none, none, none, none, 0⟩ 4 (by decide)).1⟩

end Beatemup
